import Mathlib

/-!
Verification development for the 3D Golgi characterization script
(`OMERO_Batch_3DMeasurements_.py`).

The analysis core of the script is embedded shallowly:

* the per-object filter/measure loop (script lines 279-318) becomes a fold
  over the enumerated object population, with the seven parallel accumulator
  lists of the script as the fields of `LoopState`;
* the removal of flagged objects from the population before saving
  (lines 323-325) becomes a fold of `List.erase`;
* the CSV export (lines 330-337) becomes `csvOutput`: a header row followed
  by the rows of the six-way `izip` of the accumulator lists;
* the per-image thresholding/segmentation prefix (lines 239-260) becomes
  `processImage`; the automatic threshold method ("Otsu dark stack") and the
  connected-component labeler are third-party library calls and are taken as
  function parameters, since no claim depends on their numeric content;
* the batch loop over images (lines 225-340), which contains no exception
  handler, becomes `runBatch` over a list of fallible per-image computations:
  the fold stops at the first error, as an uncaught exception stops the loop.

Measurement methods of the mcib3d library whose values the claims do depend
on (`touchBorders`, `getVolumeUnit`, `getPixMeanValue`) are not part of this
repository; they are modelled from the spec's contracts and are marked so in
their doc comments.
-/

namespace Golgi

/-- A voxel coordinate, written (x, y, z). -/
abbrev Voxel : Type := ℕ × ℕ × ℕ

/-- Physical voxel calibration: the voxel extent along each axis, in the
physical unit of the acquisition.  Rationals stand in for the doubles of the
implementation. -/
structure Calibration where
  sx : ℚ
  sy : ℚ
  sz : ℚ
deriving DecidableEq

/-- A labelled 3D object: the list of voxels that carry its label. -/
structure Obj3D where
  voxels : List Voxel
deriving DecidableEq

/-- Modelled from the spec: `Object3D.touchBorders(img, filterZ)` of the
third-party mcib3d library (not part of this repository's sources).  Per the
spec's border-filter contract, the check is independently toggleable and
flags an object iff the toggle is enabled and some voxel of the object lies
on the minimum or maximum z-slice of the volume. -/
def touchBorders (zmax : ℕ) (filterZ : Bool) (o : Obj3D) : Bool :=
  filterZ && o.voxels.any (fun v => v.2.2 == 0 || v.2.2 == zmax)

/-- Modelled from the spec: `Object3D.getVolumeUnit` of the mcib3d library —
the calibrated volume, voxel count times the physical volume of one voxel. -/
def getVolumeUnit (cal : Calibration) (o : Obj3D) : ℚ :=
  (o.voxels.length : ℚ) * (cal.sx * cal.sy * cal.sz)

/-- Modelled from the spec: `Object3D.getPixMeanValue(handler)` of the mcib3d
library — the mean of the handler image's values sampled at the object's
voxel coordinates. -/
def getPixMeanValue (intensity : Voxel → ℚ) (o : Obj3D) : ℚ :=
  (o.voxels.map intensity).sum / (o.voxels.length : ℚ)

/-- The configuration and external measurement callbacks of one pipeline run:
the calibration and its unit string, the script's `volMin` and
`filter_objects_touching_z` variables, the index of the last z-slice, the
intensity image sampled for mean intensity (`ImageHandler.wrap(imp)` in the
script), and the mcib3d measurement methods `getAreaUnit`, `getFeret`,
`getCompactness(true)`, kept abstract because no claim constrains their
numeric values. -/
structure Params where
  cal : Calibration
  unit : String
  volMin : ℚ
  filter_objects_touching_z : Bool
  zmax : ℕ
  intensity : Voxel → ℚ
  getAreaUnit : Obj3D → ℚ
  getFeret : Obj3D → ℚ
  getCompactness : Obj3D → ℚ

/-- The seven accumulator lists built up by the script's object loop
(script lines 267-275). -/
structure LoopState where
  surface_list : List ℚ
  volume_list : List ℚ
  object_number_list : List ℕ
  mean_intensity_list : List ℚ
  feret_list : List ℚ
  compactness_list : List ℚ
  golgi_obj_to_remove : List Obj3D
deriving DecidableEq

/-- All accumulators start empty. -/
def initState : LoopState := ⟨[], [], [], [], [], [], []⟩

/-- One iteration of the object loop (script lines 279-318): if the object
touches the z-border (when that filter is on) it is flagged for removal and
the iteration continues; else if its calibrated volume is below `volMin` it
is flagged and the iteration continues; otherwise one measurement is appended
to each of the six measurement lists, with the population index `i` recorded
as the object number. -/
def loopStep (p : Params) (s : LoopState) (iobj : ℕ × Obj3D) : LoopState :=
  if touchBorders p.zmax p.filter_objects_touching_z iobj.2 then
    { s with golgi_obj_to_remove := s.golgi_obj_to_remove ++ [iobj.2] }
  else if getVolumeUnit p.cal iobj.2 < p.volMin then
    { s with golgi_obj_to_remove := s.golgi_obj_to_remove ++ [iobj.2] }
  else
    { surface_list := s.surface_list ++ [p.getAreaUnit iobj.2]
      volume_list := s.volume_list ++ [getVolumeUnit p.cal iobj.2]
      object_number_list := s.object_number_list ++ [iobj.1]
      mean_intensity_list := s.mean_intensity_list ++ [getPixMeanValue p.intensity iobj.2]
      feret_list := s.feret_list ++ [p.getFeret iobj.2]
      compactness_list := s.compactness_list ++ [p.getCompactness iobj.2]
      golgi_obj_to_remove := s.golgi_obj_to_remove }

/-- The script's `for i in range(0, nb)` loop over `pop.getObject(i)`:
a fold of `loopStep` over the enumerated population. -/
def objectLoop (p : Params) (pop : List Obj3D) : LoopState :=
  pop.enum.foldl (loopStep p) initState

/-- The combined keep decision of the two filters: an object survives iff it
is not flagged by the border-touch filter and not flagged by the
minimum-volume filter. -/
def keepObj (p : Params) (o : Obj3D) : Bool :=
  !touchBorders p.zmax p.filter_objects_touching_z o &&
    !(decide (getVolumeUnit p.cal o < p.volMin))

/-- The objects that survive both filters, in population order. -/
def survivors (p : Params) (pop : List Obj3D) : List Obj3D :=
  pop.filter (keepObj p)

/-- The population saved to the geometry archive (script lines 323-325):
every object flagged in `golgi_obj_to_remove` is removed from the population
before `saveObjects` is called. -/
def savedObjects (p : Params) (pop : List Obj3D) : List Obj3D :=
  (objectLoop p pop).golgi_obj_to_remove.foldl (fun q o => q.erase o) pop

/-- One cell of the exported delimited table. -/
inductive Cell where
  | str (s : String)
  | nat (n : ℕ)
  | rat (q : ℚ)
deriving DecidableEq

/-- Python's `itertools.izip` over the six measurement lists: truncates at
the shortest list, exactly as `izip` does. -/
def izip6 : List ℕ → List ℚ → List ℚ → List ℚ → List ℚ → List ℚ →
    List (ℕ × ℚ × ℚ × ℚ × ℚ × ℚ)
  | a :: as, b :: bs, c :: cs, d :: ds, e :: es, f :: fs =>
      (a, b, c, d, e, f) :: izip6 as bs cs ds es fs
  | _, _, _, _, _, _ => []

/-- The header written by `writer.writerow` (script lines 334-335): a single
string embedding the calibration unit for the volume, surface and Feret
columns. -/
def headerStr (unit : String) : String :=
  "Object number, Object Volume (" ++ unit ++
    " cube), Compactness, Surface (" ++ unit ++
    " cube), Mean Intensity, Feret diameter (" ++ unit ++ ")"

/-- One data row: the fields of one `izip` tuple in their tuple order. -/
def rowCells (t : ℕ × ℚ × ℚ × ℚ × ℚ × ℚ) : List Cell :=
  [Cell.nat t.1, Cell.rat t.2.1, Cell.rat t.2.2.1, Cell.rat t.2.2.2.1,
   Cell.rat t.2.2.2.2.1, Cell.rat t.2.2.2.2.2]

/-- The data rows written by `writer.writerows` (script lines 336-337): the
six-way `izip` of the measurement lists, in the script's argument order
(object number, volume, compactness, surface, mean intensity, feret). -/
def dataRows (p : Params) (pop : List Obj3D) : List (List Cell) :=
  (izip6 (objectLoop p pop).object_number_list
         (objectLoop p pop).volume_list
         (objectLoop p pop).compactness_list
         (objectLoop p pop).surface_list
         (objectLoop p pop).mean_intensity_list
         (objectLoop p pop).feret_list).map rowCells

/-- The full CSV written for one image: the header row, then the data rows. -/
def csvOutput (p : Params) (pop : List Obj3D) : List (List Cell) :=
  [Cell.str (headerStr p.unit)] :: dataRows p pop

/-- The error kinds named by the spec's error-handling design.  The script
itself never constructs one: its per-image code has no error path. -/
inductive PipelineError where
  | degenerateInput
deriving DecidableEq

/-- Embeds the script's mask conversion with dark background (script lines
244-245): voxels strictly above the threshold become foreground (255), the
rest background. -/
def convertToMask (thr : ℕ) (img : Voxel → ℕ) : Voxel → ℕ :=
  fun v => if thr < img v then 255 else 0

/-- A channel holding one constant intensity everywhere. -/
def constantImage (c : ℕ) : Voxel → ℕ := fun _ => c

/-- The intensity image actually sampled by the measurement loop is the
original (pre-threshold) image wrapped by `ImageHandler.wrap(imp)`
(script line 266), not the binarized duplicate. -/
def paramsWithOriginal (p : Params) (img : Voxel → ℕ) : Params :=
  { p with intensity := fun v => (img v : ℚ) }

/-- The object population of one image: segmentation applied to the mask
obtained from the original image at the automatic threshold
(script lines 243-260).  The 3D connected-component labeler is the
third-party `Segment3DImage`; it is a parameter here. -/
def processPop (seg : (Voxel → ℕ) → List Obj3D) (thr : ℕ) (img : Voxel → ℕ) :
    List Obj3D :=
  seg (convertToMask thr img)

/-- The accumulator state at the end of one image's measurement loop:
the object loop run on that image's population, sampling intensities from
the original image. -/
def processImageState (autoThr : (Voxel → ℕ) → ℕ)
    (seg : (Voxel → ℕ) → List Obj3D) (p : Params) (img : Voxel → ℕ) :
    LoopState :=
  objectLoop (paramsWithOriginal p img) (processPop seg (autoThr img) img)

/-- One image's pipeline (script lines 239-337): threshold, mask, segment,
filter/measure, export.  The script's code for this is a straight-line
sequence with no error check and no exception handler, so the embedding
always returns `Except.ok` with the CSV table and the saved population. -/
def processImage (autoThr : (Voxel → ℕ) → ℕ)
    (seg : (Voxel → ℕ) → List Obj3D) (p : Params) (img : Voxel → ℕ) :
    Except PipelineError (List (List Cell) × List Obj3D) :=
  Except.ok
    (csvOutput (paramsWithOriginal p img) (processPop seg (autoThr img) img),
     savedObjects (paramsWithOriginal p img) (processPop seg (autoThr img) img))

/-- The batch loop over images (script lines 225-340).  Each element is one
image's fallible computation; the loop body contains no `try`/`except`, so
the first uncaught error terminates the loop: outputs of earlier images are
kept, later images are never processed.  Returns the outputs produced and
the error that stopped the batch, if any. -/
def runBatch {ε α : Type} : List (Except ε α) → List α × Option ε
  | [] => ([], none)
  | Except.ok o :: rest =>
      let r := runBatch rest
      (o :: r.1, r.2)
  | Except.error e :: _ => ([], some e)

/-- The outputs of all the non-failing computations in a batch: what the
batch would produce if per-image errors were caught at the image boundary. -/
def okOutputs {ε α : Type} (steps : List (Except ε α)) : List α :=
  steps.filterMap Except.toOption

/-- The enumerated population entries that survive both filters, starting
the enumeration at `n`. -/
def keptEnum (p : Params) (n : ℕ) (pop : List Obj3D) : List (ℕ × Obj3D) :=
  (List.enumFrom n pop).filter (fun x => keepObj p x.2)

/-- The spec scenario's solid 3x3x3 cube (27 voxels), placed at z-slices
1 to 3, away from the z-borders. -/
def cube27 : Obj3D :=
  ⟨(List.range 27).map (fun k => (k % 3, k / 3 % 3, k / 9 + 1))⟩

/-- The same 27-voxel cube shifted to include voxels at z = 0. -/
def cube27z0 : Obj3D :=
  ⟨(List.range 27).map (fun k => (k % 3, k / 3 % 3, k / 9))⟩

/-- A 4-voxel object (2x2x1 slab) disjoint from `cube27`: the spec
scenario's second, below-threshold object. -/
def slab4 : Obj3D :=
  ⟨(List.range 4).map (fun k => (5 + k % 2, 5 + k / 2, 5))⟩

/-- A single-voxel object: calibrated volume 1 under unit calibration. -/
def tiny1 : Obj3D := ⟨[(8, 8, 4)]⟩

/-- A 6-voxel object (2x3x1 slab): calibrated volume 6 under unit
calibration, above the script's default threshold. -/
def slab6 : Obj3D :=
  ⟨(List.range 6).map (fun k => (k % 2, 2 + k / 2, 3))⟩

/-- Concrete run parameters for witnesses and counterexamples: unit
calibration, the script's values `volMin = 5` and
`filter_objects_touching_z = False`, a 10-slice volume (zmax = 9), and
trivial measurement callbacks. -/
def testParams : Params :=
  { cal := ⟨1, 1, 1⟩
    unit := "micron"
    volMin := 5
    filter_objects_touching_z := false
    zmax := 9
    intensity := fun _ => 0
    getAreaUnit := fun _ => 0
    getFeret := fun _ => 0
    getCompactness := fun _ => 0 }

/-- The spec scenario's two-object population: calibrated volumes 27 and 4. -/
def scenarioPop : List Obj3D := [cube27, slab4]

/-- A stand-in for the automatic threshold method (a threshold of 0):
any concrete value serves, since the refuted behavior does not depend on
the threshold chosen. -/
def stubThreshold : (Voxel → ℕ) → ℕ := fun _ => 0

/-- A stand-in for the connected-component labeler that finds no objects
(the mask of a constant channel thresholded at its own value is empty). -/
def stubSegment : (Voxel → ℕ) → List Obj3D := fun _ => []

theorem loopStep_eq (p : Params) (s : LoopState) (i : ℕ) (o : Obj3D) :
    loopStep p s (i, o) =
      if keepObj p o then
        { surface_list := s.surface_list ++ [p.getAreaUnit o]
          volume_list := s.volume_list ++ [getVolumeUnit p.cal o]
          object_number_list := s.object_number_list ++ [i]
          mean_intensity_list := s.mean_intensity_list ++ [getPixMeanValue p.intensity o]
          feret_list := s.feret_list ++ [p.getFeret o]
          compactness_list := s.compactness_list ++ [p.getCompactness o]
          golgi_obj_to_remove := s.golgi_obj_to_remove }
      else { s with golgi_obj_to_remove := s.golgi_obj_to_remove ++ [o] } := by
  unfold loopStep keepObj
  by_cases h1 : touchBorders p.zmax p.filter_objects_touching_z o = true
  · simp [h1]
  · by_cases h2 : getVolumeUnit p.cal o < p.volMin
    · simp [h1, h2]
    · simp [h1, h2]

theorem foldl_loopStep (p : Params) (pop : List Obj3D) :
    ∀ (n : ℕ) (s : LoopState),
      List.foldl (loopStep p) s (List.enumFrom n pop) =
        { surface_list :=
            s.surface_list ++ (keptEnum p n pop).map (fun x => p.getAreaUnit x.2)
          volume_list :=
            s.volume_list ++ (keptEnum p n pop).map (fun x => getVolumeUnit p.cal x.2)
          object_number_list :=
            s.object_number_list ++ (keptEnum p n pop).map Prod.fst
          mean_intensity_list :=
            s.mean_intensity_list ++
              (keptEnum p n pop).map (fun x => getPixMeanValue p.intensity x.2)
          feret_list :=
            s.feret_list ++ (keptEnum p n pop).map (fun x => p.getFeret x.2)
          compactness_list :=
            s.compactness_list ++ (keptEnum p n pop).map (fun x => p.getCompactness x.2)
          golgi_obj_to_remove :=
            s.golgi_obj_to_remove ++ pop.filter (fun o => !keepObj p o) } := by
  induction pop with
  | nil => intro n s; simp [keptEnum, List.enumFrom]
  | cons o t ih =>
      intro n s
      rw [List.enumFrom_cons, List.foldl_cons, loopStep_eq]
      by_cases hk : keepObj p o = true
      · rw [if_pos hk, ih]
        simp [keptEnum, List.enumFrom_cons, List.filter_cons, hk]
      · rw [if_neg hk, ih]
        simp [keptEnum, List.enumFrom_cons, List.filter_cons, hk]

theorem objectLoop_eq (p : Params) (pop : List Obj3D) :
    objectLoop p pop =
      { surface_list := (keptEnum p 0 pop).map (fun x => p.getAreaUnit x.2)
        volume_list := (keptEnum p 0 pop).map (fun x => getVolumeUnit p.cal x.2)
        object_number_list := (keptEnum p 0 pop).map Prod.fst
        mean_intensity_list :=
          (keptEnum p 0 pop).map (fun x => getPixMeanValue p.intensity x.2)
        feret_list := (keptEnum p 0 pop).map (fun x => p.getFeret x.2)
        compactness_list := (keptEnum p 0 pop).map (fun x => p.getCompactness x.2)
        golgi_obj_to_remove := pop.filter (fun o => !keepObj p o) } := by
  unfold objectLoop
  rw [List.enum_eq_enumFrom, foldl_loopStep]
  simp [initState]

theorem keptEnum_map_snd (p : Params) (pop : List Obj3D) :
    ∀ n, (keptEnum p n pop).map Prod.snd = survivors p pop := by
  induction pop with
  | nil => intro n; simp [keptEnum, survivors, List.enumFrom]
  | cons o t ih =>
      intro n
      have h := ih (n + 1)
      simp only [keptEnum, survivors, List.enumFrom_cons, List.filter_cons] at h ⊢
      by_cases hk : keepObj p o = true
      · simp [hk, h]
      · simp [hk, h]

theorem keptEnum_map_val (p : Params) (pop : List Obj3D) (n : ℕ) (f : Obj3D → ℚ) :
    (keptEnum p n pop).map (fun x => f x.2) = (survivors p pop).map f := by
  rw [← keptEnum_map_snd p pop n, List.map_map]
  rfl

theorem keptEnum_length (p : Params) (pop : List Obj3D) (n : ℕ) :
    (keptEnum p n pop).length = (survivors p pop).length := by
  rw [← keptEnum_map_snd p pop n, List.length_map]

theorem foldl_erase_cons (a : Obj3D) (l : List Obj3D) :
    ∀ r : List Obj3D, (∀ x ∈ r, x ≠ a) →
      r.foldl (fun q o => q.erase o) (a :: l) =
        a :: r.foldl (fun q o => q.erase o) l := by
  intro r
  induction r generalizing l with
  | nil => intro _; rfl
  | cons x rs ih =>
      intro h
      have hxa : x ≠ a := h x (List.mem_cons_self x rs)
      simp only [List.foldl_cons]
      rw [List.erase_cons_tail (by simpa using hxa.symm)]
      exact ih (l.erase x) (fun y hy => h y (List.mem_cons_of_mem x hy))

theorem foldl_erase_filter (keep : Obj3D → Bool) (pop : List Obj3D) :
    (pop.filter (fun o => !keep o)).foldl (fun q o => q.erase o) pop
      = pop.filter keep := by
  induction pop with
  | nil => rfl
  | cons a t ih =>
      by_cases hk : keep a = true
      · have h1 : (a :: t).filter (fun o => !keep o) = t.filter (fun o => !keep o) := by
          simp [List.filter_cons, hk]
        have hne : ∀ x ∈ t.filter (fun o => !keep o), x ≠ a := by
          intro x hx hxa
          rw [List.mem_filter] at hx
          rw [hxa] at hx
          simp [hk] at hx
        rw [h1, foldl_erase_cons a t _ hne, ih]
        simp [List.filter_cons, hk]
      · have h1 : (a :: t).filter (fun o => !keep o)
            = a :: t.filter (fun o => !keep o) := by
          simp [List.filter_cons, hk]
        rw [h1, List.foldl_cons, List.erase_cons_head, ih]
        simp [List.filter_cons, hk]

theorem savedObjects_eq (p : Params) (pop : List Obj3D) :
    savedObjects p pop = survivors p pop := by
  unfold savedObjects survivors
  rw [objectLoop_eq]
  exact foldl_erase_filter (keepObj p) pop

theorem le_fst_of_mem_enumFrom_aux (l : List Obj3D) :
    ∀ (n : ℕ) (x : ℕ × Obj3D), x ∈ List.enumFrom n l → n ≤ x.1 := by
  induction l with
  | nil => intro n x hx; simp [List.enumFrom] at hx
  | cons a t ih =>
      intro n x hx
      rw [List.enumFrom_cons] at hx
      rcases List.mem_cons.mp hx with h | h
      · subst h; exact Nat.le_refl n
      · exact Nat.le_of_succ_le (ih (n + 1) x h)

theorem pairwise_fst_lt_enumFrom (l : List Obj3D) :
    ∀ n, List.Pairwise (fun a b : ℕ × Obj3D => a.1 < b.1) (List.enumFrom n l) := by
  induction l with
  | nil => intro n; simp [List.enumFrom]
  | cons a t ih =>
      intro n
      rw [List.enumFrom_cons]
      refine List.Pairwise.cons ?_ (ih (n + 1))
      intro y hy
      exact Nat.lt_of_lt_of_le (Nat.lt_succ_self n)
        (le_fst_of_mem_enumFrom_aux t (n + 1) y hy)

theorem object_number_list_pairwise (p : Params) (pop : List Obj3D) :
    List.Pairwise (fun a b => a < b) (objectLoop p pop).object_number_list := by
  rw [objectLoop_eq]
  simp only [keptEnum]
  refine List.pairwise_map.mpr ?_
  exact List.Pairwise.filter _ (pairwise_fst_lt_enumFrom pop 0)

theorem izip6_map (es : List (ℕ × Obj3D)) (f1 : ℕ × Obj3D → ℕ)
    (f2 f3 f4 f5 f6 : ℕ × Obj3D → ℚ) :
    izip6 (es.map f1) (es.map f2) (es.map f3) (es.map f4) (es.map f5) (es.map f6)
      = es.map (fun x => (f1 x, f2 x, f3 x, f4 x, f5 x, f6 x)) := by
  induction es with
  | nil => rfl
  | cons x t ih => simp [izip6, ih]

theorem dataRows_eq (p : Params) (pop : List Obj3D) :
    dataRows p pop = (keptEnum p 0 pop).map (fun x =>
      [Cell.nat x.1, Cell.rat (getVolumeUnit p.cal x.2),
       Cell.rat (p.getCompactness x.2), Cell.rat (p.getAreaUnit x.2),
       Cell.rat (getPixMeanValue p.intensity x.2), Cell.rat (p.getFeret x.2)]) := by
  simp only [dataRows, objectLoop_eq]
  rw [izip6_map, List.map_map]
  rfl

theorem golgi_eq (p : Params) (pop : List Obj3D) :
    (objectLoop p pop).golgi_obj_to_remove
      = pop.filter (fun o => !keepObj p o) := by
  rw [objectLoop_eq]

theorem volume_list_eq (p : Params) (pop : List Obj3D) :
    (objectLoop p pop).volume_list
      = (survivors p pop).map (getVolumeUnit p.cal) := by
  have h : (objectLoop p pop).volume_list
      = (keptEnum p 0 pop).map (fun x => getVolumeUnit p.cal x.2) := by
    rw [objectLoop_eq]
  rw [h, keptEnum_map_val]

theorem surface_list_eq (p : Params) (pop : List Obj3D) :
    (objectLoop p pop).surface_list = (survivors p pop).map p.getAreaUnit := by
  have h : (objectLoop p pop).surface_list
      = (keptEnum p 0 pop).map (fun x => p.getAreaUnit x.2) := by
    rw [objectLoop_eq]
  rw [h, keptEnum_map_val]

theorem mean_intensity_list_eq (p : Params) (pop : List Obj3D) :
    (objectLoop p pop).mean_intensity_list
      = (survivors p pop).map (getPixMeanValue p.intensity) := by
  have h : (objectLoop p pop).mean_intensity_list
      = (keptEnum p 0 pop).map (fun x => getPixMeanValue p.intensity x.2) := by
    rw [objectLoop_eq]
  rw [h, keptEnum_map_val]

theorem feret_list_eq (p : Params) (pop : List Obj3D) :
    (objectLoop p pop).feret_list = (survivors p pop).map p.getFeret := by
  have h : (objectLoop p pop).feret_list
      = (keptEnum p 0 pop).map (fun x => p.getFeret x.2) := by
    rw [objectLoop_eq]
  rw [h, keptEnum_map_val]

theorem compactness_list_eq (p : Params) (pop : List Obj3D) :
    (objectLoop p pop).compactness_list
      = (survivors p pop).map p.getCompactness := by
  have h : (objectLoop p pop).compactness_list
      = (keptEnum p 0 pop).map (fun x => p.getCompactness x.2) := by
    rw [objectLoop_eq]
  rw [h, keptEnum_map_val]

theorem object_number_list_eq (p : Params) (pop : List Obj3D) :
    (objectLoop p pop).object_number_list
      = (keptEnum p 0 pop).map Prod.fst := by
  rw [objectLoop_eq]

theorem object_number_length_eq (p : Params) (pop : List Obj3D) :
    (objectLoop p pop).object_number_list.length = (survivors p pop).length := by
  rw [object_number_list_eq, List.length_map, keptEnum_length]

theorem filter_length_split (keep : Obj3D → Bool) (pop : List Obj3D) :
    (pop.filter keep).length + (pop.filter (fun o => !keep o)).length
      = pop.length :=
  (List.length_eq_length_filter_add keep).symm

theorem keep_cube27 : keepObj testParams cube27 = true := by
  norm_num [keepObj, touchBorders, getVolumeUnit, testParams, cube27]

theorem keep_slab4 : keepObj testParams slab4 = false := by
  norm_num [keepObj, touchBorders, getVolumeUnit, testParams, slab4]

theorem keep_tiny1 : keepObj testParams tiny1 = false := by
  norm_num [keepObj, touchBorders, getVolumeUnit, testParams, tiny1]

theorem keep_slab6 : keepObj testParams slab6 = true := by
  norm_num [keepObj, touchBorders, getVolumeUnit, testParams, slab6]

theorem survivors_scenario : survivors testParams scenarioPop = [cube27] := by
  simp [survivors, scenarioPop, List.filter_cons, keep_cube27, keep_slab4]

theorem vol_cube27 : getVolumeUnit testParams.cal cube27 = 27 := by
  norm_num [getVolumeUnit, testParams, cube27]

/-- C1: when the border-touch filter is disabled, the object loop never
flags an object for removal on account of touching a volume border: an
object is flagged iff it is in the population and its calibrated volume is
below the minimum-volume threshold. -/
theorem c1_border_filter_disabled_only_volume (p : Params) (pop : List Obj3D)
    (h : p.filter_objects_touching_z = false) (o : Obj3D) :
    o ∈ (objectLoop p pop).golgi_obj_to_remove ↔
      o ∈ pop ∧ getVolumeUnit p.cal o < p.volMin := by
  rw [golgi_eq, List.mem_filter]
  constructor
  · rintro ⟨hmem, hflag⟩
    refine ⟨hmem, ?_⟩
    simp [keepObj, touchBorders, h] at hflag
    exact hflag
  · rintro ⟨hmem, hvol⟩
    refine ⟨hmem, ?_⟩
    simp [keepObj, touchBorders, h, hvol]

/-- C1 witness: with the border filter disabled, the 27-voxel cube touching
z = 0 is not flagged for removal (its volume 27 is not below volMin = 5). -/
theorem c1_witness :
    cube27z0 ∉ (objectLoop testParams [cube27z0]).golgi_obj_to_remove := by
  intro hmem
  have h := (c1_border_filter_disabled_only_volume testParams [cube27z0]
    rfl cube27z0).mp hmem
  have hv : ¬ (getVolumeUnit testParams.cal cube27z0 < testParams.volMin) := by
    norm_num [getVolumeUnit, testParams, cube27z0]
  exact hv h.2

/-- C2 is false as stated: in a population whose first object is removed by
the minimum-volume filter and whose second object survives, the single
surviving object is reported with objectIndex 1, not 0 — the reported
indices are not consecutive over the surviving objects. -/
theorem c2_counterexample :
    (objectLoop testParams [tiny1, slab6]).object_number_list = [1]
    ∧ (objectLoop testParams [tiny1, slab6]).object_number_list
        ≠ List.range (objectLoop testParams [tiny1, slab6]).object_number_list.length := by
  have h : (objectLoop testParams [tiny1, slab6]).object_number_list = [1] := by
    rw [object_number_list_eq]
    simp [keptEnum, List.enumFrom, List.filter_cons, keep_tiny1, keep_slab6]
  refine ⟨h, ?_⟩
  rw [h]
  decide

/-- C2 amended: each surviving object is reported with its 0-based index in
the full population (population order), so the reported indices are strictly
increasing but not necessarily consecutive; this index is the first field of
the object's data row. -/
theorem c2_object_index_is_population_position (p : Params) (pop : List Obj3D) :
    (objectLoop p pop).object_number_list = (keptEnum p 0 pop).map Prod.fst
    ∧ List.Pairwise (fun a b => a < b) (objectLoop p pop).object_number_list
    ∧ (dataRows p pop).map List.head?
        = (objectLoop p pop).object_number_list.map (fun i => some (Cell.nat i)) := by
  refine ⟨object_number_list_eq p pop, object_number_list_pairwise p pop, ?_⟩
  rw [dataRows_eq, List.map_map, object_number_list_eq, List.map_map]
  rfl

/-- C3 is false as stated: on a channel holding the single constant value 7
the pipeline does not signal a `DegenerateInputError`; it completes normally
and returns the standard outputs (here, a header-only table and an empty
archive). -/
theorem c3_counterexample :
    processImage stubThreshold stubSegment testParams (constantImage 7)
        = Except.ok ([[Cell.str (headerStr testParams.unit)]], [])
    ∧ processImage stubThreshold stubSegment testParams (constantImage 7)
        ≠ Except.error PipelineError.degenerateInput := by
  constructor
  · rfl
  · simp [processImage]

/-- C3 amended: the code performs no degenerate-input check at the
binarization step: for every image, constant channels included, the per-image
pipeline never signals an error, so no image is ever skipped on account of an
undefined threshold. -/
theorem c3_no_error_is_ever_signalled (autoThr : (Voxel → ℕ) → ℕ)
    (seg : (Voxel → ℕ) → List Obj3D) (p : Params) (img : Voxel → ℕ)
    (e : PipelineError) :
    processImage autoThr seg p img ≠ Except.error e := by
  simp [processImage]

/-- C4 is false as stated: in a batch whose second image fails, the batch
stops at the failure — the third image's output is never produced, so the
batch outputs differ from the outputs of all non-failing images. -/
theorem c4_counterexample :
    runBatch [Except.ok (1 : ℕ), Except.error PipelineError.degenerateInput,
        Except.ok 2]
      = ([1], some PipelineError.degenerateInput)
    ∧ (runBatch [Except.ok (1 : ℕ), Except.error PipelineError.degenerateInput,
          Except.ok 2]).1
        ≠ okOutputs [Except.ok (1 : ℕ),
            Except.error PipelineError.degenerateInput, Except.ok 2] := by
  constructor
  · rfl
  · decide

/-- C4 amended: the batch loop has no per-image error handler: an error
raised while processing one image aborts the whole batch at that image —
the images before it are fully processed, the images after it are never
processed. -/
theorem c4_uncaught_error_aborts_batch {ε α : Type} (xs : List α) (e : ε)
    (rest : List (Except ε α)) :
    runBatch (xs.map Except.ok ++ Except.error e :: rest) = (xs, some e) := by
  induction xs with
  | nil => rfl
  | cons x t ih => simp [runBatch, ih]

/-- C5: every volume in the reported volume list is at least the configured
minimum (no object below the threshold reaches the table), and in the spec's
two-object scenario (volumes 27 and 4, threshold 5) exactly the 27-volume
object survives, reported with volume 27. -/
theorem c5_minimum_volume_filter :
    (∀ (p : Params) (pop : List Obj3D) (v : ℚ),
        v ∈ (objectLoop p pop).volume_list → p.volMin ≤ v)
    ∧ (objectLoop testParams scenarioPop).volume_list = [27]
    ∧ savedObjects testParams scenarioPop = [cube27] := by
  refine ⟨?_, ?_, ?_⟩
  · intro p pop v hv
    rw [volume_list_eq] at hv
    rcases List.mem_map.mp hv with ⟨o, ho, rfl⟩
    unfold survivors at ho
    have hk := (List.mem_filter.mp ho).2
    simp only [keepObj, Bool.and_eq_true, Bool.not_eq_true',
      decide_eq_false_iff_not, not_lt] at hk
    exact hk.2
  · rw [volume_list_eq, survivors_scenario]
    simp [vol_cube27]
  · rw [savedObjects_eq, survivors_scenario]

/-- C5 witness: in the concrete scenario the volume 27 is reported, and the
general bound instantiates to volMin = 5 ≤ 27 there. -/
theorem c5_witness :
    (27 : ℚ) ∈ (objectLoop testParams scenarioPop).volume_list
    ∧ testParams.volMin ≤ (27 : ℚ) := by
  have hm : (27 : ℚ) ∈ (objectLoop testParams scenarioPop).volume_list := by
    rw [c5_minimum_volume_filter.2.1]
    simp
  exact ⟨hm, c5_minimum_volume_filter.1 testParams scenarioPop 27 hm⟩

/-- C6: for every run of the per-image pipeline, the reported mean
intensities are the means of the original (pre-threshold) image's values
sampled exactly at each surviving object's voxel coordinates — the image
sampled is `img`, the original volume, not the mask built from it. -/
theorem c6_mean_intensity_from_original (autoThr : (Voxel → ℕ) → ℕ)
    (seg : (Voxel → ℕ) → List Obj3D) (p : Params) (img : Voxel → ℕ) :
    (processImageState autoThr seg p img).mean_intensity_list
      = (survivors (paramsWithOriginal p img)
            (processPop seg (autoThr img) img)).map
          (fun o => (o.voxels.map (fun v => ((img v : ℚ)))).sum
              / (o.voxels.length : ℚ)) := by
  unfold processImageState
  rw [mean_intensity_list_eq]
  rfl

/-- C7: when zero objects survive the filters, the pipeline still produces a
table consisting of exactly the header row, and an empty geometry archive. -/
theorem c7_empty_population_result (p : Params) (pop : List Obj3D)
    (h : survivors p pop = []) :
    csvOutput p pop = [[Cell.str (headerStr p.unit)]]
    ∧ savedObjects p pop = [] := by
  constructor
  · have hk : keptEnum p 0 pop = [] := by
      have hs := keptEnum_map_snd p pop 0
      rw [h] at hs
      exact List.map_eq_nil_iff.mp hs
    unfold csvOutput
    rw [dataRows_eq, hk]
    rfl
  · rw [savedObjects_eq, h]

/-- C7 witness: an empty population yields the header-only table and the
empty archive. -/
theorem c7_witness :
    csvOutput testParams [] = [[Cell.str (headerStr testParams.unit)]]
    ∧ savedObjects testParams [] = [] :=
  c7_empty_population_result testParams [] rfl

/-- C8: the exported table is the header row followed by the data rows; the
header embeds the calibration unit for the volume, surface and Feret
columns; each data row holds, in this fixed order, the object index, volume,
compactness, surface, mean intensity and Feret diameter of one surviving
object; and there is exactly one data row per surviving object. -/
theorem c8_table_layout (p : Params) (pop : List Obj3D) :
    csvOutput p pop = [Cell.str (headerStr p.unit)] :: dataRows p pop
    ∧ headerStr p.unit
        = "Object number, Object Volume (" ++ p.unit ++
            " cube), Compactness, Surface (" ++ p.unit ++
            " cube), Mean Intensity, Feret diameter (" ++ p.unit ++ ")"
    ∧ dataRows p pop = (keptEnum p 0 pop).map (fun x =>
        [Cell.nat x.1, Cell.rat (getVolumeUnit p.cal x.2),
         Cell.rat (p.getCompactness x.2), Cell.rat (p.getAreaUnit x.2),
         Cell.rat (getPixMeanValue p.intensity x.2), Cell.rat (p.getFeret x.2)])
    ∧ (dataRows p pop).length = (survivors p pop).length := by
  refine ⟨rfl, rfl, dataRows_eq p pop, ?_⟩
  rw [dataRows_eq, List.length_map, keptEnum_length]

/-- C9: every object of the population lands in exactly one of the two
disjoint sets — saved survivors or removal-flagged objects — and the number
of measured objects plus the number of removed objects equals the population
size. -/
theorem c9_population_conservation (p : Params) (pop : List Obj3D) :
    (objectLoop p pop).object_number_list.length
        + (objectLoop p pop).golgi_obj_to_remove.length = pop.length
    ∧ (∀ o : Obj3D, o ∈ savedObjects p pop
        → o ∉ (objectLoop p pop).golgi_obj_to_remove)
    ∧ (∀ o : Obj3D, o ∈ pop
        → o ∈ savedObjects p pop ∨ o ∈ (objectLoop p pop).golgi_obj_to_remove) := by
  refine ⟨?_, ?_, ?_⟩
  · rw [object_number_length_eq, golgi_eq]
    exact filter_length_split (keepObj p) pop
  · intro o hs hg
    rw [savedObjects_eq] at hs
    unfold survivors at hs
    rw [List.mem_filter] at hs
    rw [golgi_eq, List.mem_filter] at hg
    rw [hs.2] at hg
    simp at hg
  · intro o hmem
    by_cases hk : keepObj p o = true
    · left
      rw [savedObjects_eq]
      unfold survivors
      exact List.mem_filter.mpr ⟨hmem, hk⟩
    · right
      rw [golgi_eq]
      exact List.mem_filter.mpr ⟨hmem, by simp [hk]⟩

/-- C9 witness: on the two-object scenario population, 1 measured + 1
removed = 2 objects, and the surviving cube is not in the removal set. -/
theorem c9_witness :
    (objectLoop testParams scenarioPop).object_number_list.length
        + (objectLoop testParams scenarioPop).golgi_obj_to_remove.length = 2
    ∧ cube27 ∉ (objectLoop testParams scenarioPop).golgi_obj_to_remove := by
  have hm : cube27 ∈ savedObjects testParams scenarioPop := by
    rw [savedObjects_eq, survivors_scenario]
    exact List.mem_singleton.mpr rfl
  constructor
  · simpa [scenarioPop] using (c9_population_conservation testParams scenarioPop).1
  · exact (c9_population_conservation testParams scenarioPop).2.1 cube27 hm

/-- C10: after the loop, the six measurement lists are the six measurements
mapped over the same list of surviving objects — so they all have the same
length and position k of each list belongs to the k-th surviving object. -/
theorem c10_measurement_lists_aligned (p : Params) (pop : List Obj3D) :
    (objectLoop p pop).volume_list = (survivors p pop).map (getVolumeUnit p.cal)
    ∧ (objectLoop p pop).surface_list = (survivors p pop).map p.getAreaUnit
    ∧ (objectLoop p pop).mean_intensity_list
        = (survivors p pop).map (getPixMeanValue p.intensity)
    ∧ (objectLoop p pop).feret_list = (survivors p pop).map p.getFeret
    ∧ (objectLoop p pop).compactness_list = (survivors p pop).map p.getCompactness
    ∧ [(objectLoop p pop).object_number_list.length,
       (objectLoop p pop).volume_list.length,
       (objectLoop p pop).compactness_list.length,
       (objectLoop p pop).surface_list.length,
       (objectLoop p pop).mean_intensity_list.length,
       (objectLoop p pop).feret_list.length]
        = List.replicate 6 (survivors p pop).length := by
  refine ⟨volume_list_eq p pop, surface_list_eq p pop,
    mean_intensity_list_eq p pop, feret_list_eq p pop,
    compactness_list_eq p pop, ?_⟩
  rw [object_number_length_eq, volume_list_eq, compactness_list_eq,
    surface_list_eq, mean_intensity_list_eq, feret_list_eq]
  simp [List.replicate]

end Golgi
